import Mathlib

/-!
Shallow embedding of `src/png_to_jpg_converter.py` (class `PNGtoJPGConverter`,
methods `convert_single_file` and `batch_convert`).

Modelling choices:
* A filesystem path is a list of components (`FPath`); `pathStr` renders it
  with `/` separators as `str(Path(...))` would.
* The filesystem is a pair of a file list (in directory-walk order, the order
  `Path.rglob` enumerates) and a directory list.  `Path.exists`, `Path.mkdir
  (parents=True, exist_ok=True)`, `Image.open` and `Image.save` become
  `pathExists`, `mkdirParents`, `lookupFile` and `writeFile`.
* PIL images are modelled at the interface the script uses: an image carries
  its `mode` string, its size, and the provenance of the PIL calls that built
  it (`Image.new('RGB',...)`, `convert`, `paste`, `split()[-1]`, JPEG
  encoding).  Codec internals are external to the script and stay abstract.
* Exceptions: `convert_single_file` wraps its whole body in
  `try/except Exception`, so it is embedded as a total function returning the
  `(bool, str)` pair plus the resulting filesystem.  `batch_convert` can raise
  `FileNotFoundError` on the root directory, so it returns `Except String`.
* The progress callback is embedded as the list of invocations
  `(index, total, filename)` the loop would make when a callback is supplied
  (`calls`); with `progress_callback=None` the same run makes no calls.
-/

abbrev FPath := List String

def pathStr (p : FPath) : String :=
  String.intercalate "/" p

/-- `Path.name`: the final component. -/
def pathName (p : FPath) : String :=
  p.getLast?.getD ""

/-- `Path.parent`: drop the final component. -/
def pathParent (p : FPath) : FPath :=
  p.dropLast

/-- `Path.stem`: the name with its last suffix removed; a dot at position 0 or
at the very end does not start a suffix (CPython `pathlib` rule). -/
def stem (nm : String) : String :=
  let cs := nm.toList
  let dots := (List.range cs.length).filter (fun i => cs.getD i ' ' == '.')
  match dots.getLast? with
  | some i => if 0 < i ∧ i < cs.length - 1 then String.mk (cs.take i) else nm
  | none => nm

/-- PIL images at the interface the script uses; constructors record which PIL
call produced the image. -/
inductive PImage where
  | decoded (mode : String) (size : Nat × Nat) (data : Nat)
  | newRGB (size : Nat × Nat) (color : Nat × Nat × Nat)
  | converted (target : String) (src : PImage)
  | pasted (base : PImage) (overlay : PImage) (mask : Option PImage)
  | lastChannel (src : PImage)
  | jpegEncoded (src : PImage) (quality : Nat)

def PImage.mode : PImage → String
  | .decoded m _ _ => m
  | .newRGB _ _ => "RGB"
  | .converted t _ => t
  | .pasted b _ _ => b.mode
  | .lastChannel _ => "L"
  | .jpegEncoded _ _ => "RGB"

def PImage.size : PImage → Nat × Nat
  | .decoded _ sz _ => sz
  | .newRGB sz _ => sz
  | .converted _ s => s.size
  | .pasted b _ _ => b.size
  | .lastChannel s => s.size
  | .jpegEncoded s _ => s.size

/-- PIL modes that carry an alpha channel. -/
def hasAlphaChannel (img : PImage) : Bool :=
  img.mode == "RGBA" || img.mode == "LA" || img.mode == "PA" ||
  img.mode == "RGBa" || img.mode == "La"

inductive FileContent where
  | image (img : PImage)
  | corrupt (msg : String)

structure FileEntry where
  path : FPath
  content : FileContent

/-- The filesystem: files in directory-walk order, plus directories. -/
structure FS where
  files : List FileEntry
  dirs : List FPath

def pathExists (fs : FS) (p : FPath) : Bool :=
  fs.files.any (fun e => e.path == p) || fs.dirs.any (fun d => d == p)

def lookupFile (fs : FS) (p : FPath) : Option FileContent :=
  (fs.files.find? (fun e => e.path == p)).map (·.content)

/-- `Image.save` / writing a file: an existing file at the path is replaced. -/
def writeFile (fs : FS) (p : FPath) (c : FileContent) : FS :=
  ⟨(fs.files.filter (fun e => e.path != p)) ++ [⟨p, c⟩], fs.dirs⟩

/-- All ancestors of `d` including `d` itself (nonempty take-fronts). -/
def ancestorDirs (d : FPath) : List FPath :=
  (List.range d.length).map (fun i => d.take (i + 1))

/-- `Path.mkdir(parents=True, exist_ok=True)`. -/
def mkdirParents (fs : FS) (d : FPath) : FS :=
  ⟨fs.files, fs.dirs ++ ancestorDirs d⟩

/-- `name.endswith(ext)`, written over the character list so it reduces in the
kernel. -/
def strEndsWith (s suff : String) : Bool :=
  suff.data.isSuffixOf s.data

/-- `input_dir.rglob(pattern)` restricted to files: the files strictly under
`dir` whose name matches `*` followed by `ext` (case-sensitive, as on a
POSIX filesystem), in walk order. -/
def rglobFiles (fs : FS) (dir : FPath) (ext : String) : List FPath :=
  (fs.files.filter (fun e =>
    dir.isPrefixOf e.path && decide (dir.length < e.path.length) &&
      strEndsWith (pathName e.path) ext)).map (·.path)

/-- Line 69: `list(input_dir.rglob('*.png')) + list(input_dir.rglob('*.PNG'))`. -/
def rglobPng (fs : FS) (dir : FPath) : List FPath :=
  rglobFiles fs dir ".png" ++ rglobFiles fs dir ".PNG"

structure PNGtoJPGConverter where
  quality : Nat
  background_color : Nat × Nat × Nat

/-- `__init__`: quality 95, white background. -/
def PNGtoJPGConverter.init : PNGtoJPGConverter :=
  ⟨95, (255, 255, 255)⟩

/-- Lines 42-51: flatten RGBA/LA/P over a fresh RGB background (converting P
to RGBA first, and using the last channel as paste mask when the pasted image
is RGBA or LA); other non-RGB modes are converted directly to RGB. -/
def normalizeImage (bg : Nat × Nat × Nat) (img0 : PImage) : PImage :=
  if img0.mode = "RGBA" ∨ img0.mode = "LA" ∨ img0.mode = "P" then
    let background := PImage.newRGB img0.size bg
    let img1 := if img0.mode = "P" then PImage.converted "RGBA" img0 else img0
    let mask := if img1.mode = "RGBA" ∨ img1.mode = "LA"
      then some (PImage.lastChannel img1) else none
    PImage.pasted background img1 mask
  else if img0.mode ≠ "RGB" then
    PImage.converted "RGB" img0
  else
    img0

/-- Lines 30-38: output directory (source parent when none given) joined with
the stem plus `.jpg`. -/
def output_path (png_path : FPath) (output_dir : Option FPath) : FPath :=
  (match output_dir with
   | none => pathParent png_path
   | some d => d) ++ [stem (pathName png_path) ++ ".jpg"]

/-- Lines 22-60, `convert_single_file`: total (the Python body is wrapped in
`try/except Exception`, so no exception escapes); returns the `(bool, str)`
result together with the filesystem after any side effects. -/
def convert_single_file (conv : PNGtoJPGConverter) (fs : FS) (png_path : FPath)
    (output_dir : Option FPath) (quality : Option Nat) : (Bool × String) × FS :=
  if pathExists fs png_path = false then
    ((false, "File not found: " ++ pathStr png_path), fs)
  else
    let fs1 := match output_dir with
      | none => fs
      | some d => mkdirParents fs d
    let jpg_path := output_path png_path output_dir
    match lookupFile fs1 png_path with
    | none =>
        ((false, "cannot open: " ++ pathStr png_path), fs1)
    | some (FileContent.corrupt msg) =>
        ((false, msg), fs1)
    | some (FileContent.image img) =>
        let save_quality := quality.getD conv.quality
        ((true, pathStr jpg_path),
          writeFile fs1 jpg_path
            (FileContent.image
              (PImage.jpegEncoded (normalizeImage conv.background_color img)
                save_quality)))

/-- Result of a batch run: the two lists, the final filesystem, and the
progress-callback invocations `(index, total, filename)` in order. -/
structure BatchState where
  successes : List String
  errors : List String
  fs : FS
  calls : List (Nat × Nat × String)

/-- Lines 77-86, the `for i, png_file in enumerate(png_files)` loop. -/
def batchLoop (conv : PNGtoJPGConverter) (output_dir : Option FPath)
    (quality : Option Nat) (total : Nat) :
    List FPath → Nat → FS → BatchState
  | [], _, fs => ⟨[], [], fs, []⟩
  | p :: rest, i, fs =>
    let r := convert_single_file conv fs p output_dir quality
    let st := batchLoop conv output_dir quality total rest (i + 1) r.2
    if r.1.1 then
      ⟨r.1.2 :: st.successes, st.errors, st.fs,
        (i, total, pathName p) :: st.calls⟩
    else
      ⟨st.successes, (pathName p ++ ": " ++ r.1.2) :: st.errors, st.fs,
        (i, total, pathName p) :: st.calls⟩

/-- Lines 62-91, `batch_convert`. -/
def batch_convert (conv : PNGtoJPGConverter) (fs : FS) (input_dir : FPath)
    (output_dir : Option FPath) (quality : Option Nat) :
    Except String BatchState :=
  if pathExists fs input_dir = false then
    Except.error ("Directory not found: " ++ pathStr input_dir)
  else
    let png_files := rglobPng fs input_dir
    if png_files = [] then
      Except.ok ⟨[], ["No PNG files found in the specified directory"], fs, []⟩
    else
      let st := batchLoop conv output_dir quality png_files.length png_files 0 fs
      Except.ok ⟨st.successes, st.errors, st.fs,
        st.calls ++ [(png_files.length, png_files.length, "Conversion complete!")]⟩

/-- The per-file success flags a sequential run produces, threading the
filesystem exactly as the loop does. -/
def runOutcomes (conv : PNGtoJPGConverter) (output_dir : Option FPath)
    (quality : Option Nat) : List FPath → FS → List Bool
  | [], _ => []
  | p :: rest, fs =>
    let r := convert_single_file conv fs p output_dir quality
    r.1.1 :: runOutcomes conv output_dir quality rest r.2

/-! ### Basic facts about the filesystem model -/

theorem lookupFile_mkdirParents (fs : FS) (d p : FPath) :
    lookupFile (mkdirParents fs d) p = lookupFile fs p := rfl

theorem dirs_writeFile (fs : FS) (p : FPath) (c : FileContent) :
    (writeFile fs p c).dirs = fs.dirs := rfl

theorem find_filter_ne (l : List FileEntry) (p : FPath) :
    (l.filter (fun e => e.path != p)).find? (fun e => e.path == p) = none := by
  rw [List.find?_eq_none]
  intro e he
  have h2 := (List.mem_filter.mp he).2
  simp only [bne_iff_ne, ne_eq, decide_eq_true_eq] at h2
  simp [h2]

theorem lookupFile_writeFile_self (fs : FS) (p : FPath) (c : FileContent) :
    lookupFile (writeFile fs p c) p = some c := by
  unfold lookupFile writeFile
  rw [List.find?_append, find_filter_ne]
  simp [List.find?_cons_of_pos]

/-! ### Characterisation of the success path of `convert_single_file` -/

theorem convert_success_spec (conv : PNGtoJPGConverter) (fs : FS) (p : FPath)
    (od : Option FPath) (q : Option Nat) (img : PImage)
    (hex : pathExists fs p = true)
    (himg : lookupFile fs p = some (FileContent.image img)) :
    convert_single_file conv fs p od q =
      ((true, pathStr (output_path p od)),
        writeFile (match od with | none => fs | some d => mkdirParents fs d)
          (output_path p od)
          (FileContent.image
            (PImage.jpegEncoded (normalizeImage conv.background_color img)
              (q.getD conv.quality)))) := by
  cases od <;>
    simp [convert_single_file, hex, lookupFile_mkdirParents, himg]

theorem convert_success_inv (conv : PNGtoJPGConverter) (fs : FS) (p : FPath)
    (od : Option FPath) (q : Option Nat)
    (h : (convert_single_file conv fs p od q).1.1 = true) :
    pathExists fs p = true ∧
      ∃ img, lookupFile fs p = some (FileContent.image img) := by
  cases hex : pathExists fs p with
  | false => simp [convert_single_file, hex] at h
  | true =>
    refine ⟨rfl, ?_⟩
    cases od with
    | none =>
      cases hlook : lookupFile fs p with
      | none => simp [convert_single_file, hex, hlook] at h
      | some c =>
        cases c with
        | image img => exact ⟨img, rfl⟩
        | corrupt msg => simp [convert_single_file, hex, hlook] at h
    | some d =>
      cases hlook : lookupFile fs p with
      | none =>
        simp [convert_single_file, hex, lookupFile_mkdirParents, hlook] at h
      | some c =>
        cases c with
        | image img => exact ⟨img, rfl⟩
        | corrupt msg =>
          simp [convert_single_file, hex, lookupFile_mkdirParents, hlook] at h

/-! ### The batch loop -/

theorem batchLoop_calls (conv : PNGtoJPGConverter) (od : Option FPath)
    (q : Option Nat) (total : Nat) :
    ∀ (files : List FPath) (i : Nat) (fs : FS),
      (batchLoop conv od q total files i fs).calls =
        List.zipWith (fun j p => (j, total, pathName p))
          (List.range' i files.length) files := by
  intro files
  induction files with
  | nil => intro i fs; simp [batchLoop]
  | cons p rest ih =>
    intro i fs
    cases hr : (convert_single_file conv fs p od q).1.1 <;>
      simp [batchLoop, hr, ih, List.range'_succ]

theorem batchLoop_lengths (conv : PNGtoJPGConverter) (od : Option FPath)
    (q : Option Nat) (total : Nat) :
    ∀ (files : List FPath) (i : Nat) (fs : FS),
      (batchLoop conv od q total files i fs).successes.length =
        (runOutcomes conv od q files fs).count true ∧
      (batchLoop conv od q total files i fs).errors.length =
        (runOutcomes conv od q files fs).count false := by
  intro files
  induction files with
  | nil => intro i fs; simp [batchLoop, runOutcomes]
  | cons p rest ih =>
    intro i fs
    cases hr : (convert_single_file conv fs p od q).1.1 <;>
      simp [batchLoop, runOutcomes, hr, ih, List.count_cons]

theorem count_true_add_count_false (l : List Bool) :
    l.count true + l.count false = l.length := by
  induction l with
  | nil => simp
  | cons b l ih => cases b <;> simp [List.count_cons, ih] <;> omega

theorem runOutcomes_length (conv : PNGtoJPGConverter) (od : Option FPath)
    (q : Option Nat) :
    ∀ (files : List FPath) (fs : FS),
      (runOutcomes conv od q files fs).length = files.length := by
  intro files
  induction files with
  | nil => intro fs; rfl
  | cons p rest ih => intro fs; simp [runOutcomes, ih]

/-! ### Concrete filesystems used by the witnesses -/

def imgRGB : PImage := PImage.decoded "RGB" (2, 2) 0

def imgRGBA : PImage := PImage.decoded "RGBA" (2, 2) 1

def fsW1 : FS :=
  ⟨[⟨["d", "a.png"], FileContent.image imgRGB⟩,
    ⟨["d", "b.png"], FileContent.corrupt "cannot identify image file"⟩],
   [["d"]]⟩

def fsW2 : FS := ⟨[⟨["e", "a.txt"], FileContent.image imgRGB⟩], [["e"]]⟩

/-! ### Claim theorems -/

/-- C1: on a directory with `N ≥ 1` matched files, `batch_convert` returns a
pair of lists with `len(success) + len(errors) = N`, where the error count is
exactly the number of files whose conversion fails in the sequential run; each
file lands in exactly one list and a failure does not stop the batch. -/
theorem batch_convert_partition (conv : PNGtoJPGConverter) (fs : FS)
    (input_dir : FPath) (od : Option FPath) (q : Option Nat)
    (hex : pathExists fs input_dir = true)
    (hne : rglobPng fs input_dir ≠ []) :
    ∃ st : BatchState,
      batch_convert conv fs input_dir od q = Except.ok st ∧
      st.successes.length + st.errors.length = (rglobPng fs input_dir).length ∧
      st.successes.length =
        (runOutcomes conv od q (rglobPng fs input_dir) fs).count true ∧
      st.errors.length =
        (runOutcomes conv od q (rglobPng fs input_dir) fs).count false := by
  have hb := batchLoop_lengths conv od q (rglobPng fs input_dir).length
    (rglobPng fs input_dir) 0 fs
  refine ⟨⟨(batchLoop conv od q (rglobPng fs input_dir).length
              (rglobPng fs input_dir) 0 fs).successes,
           (batchLoop conv od q (rglobPng fs input_dir).length
              (rglobPng fs input_dir) 0 fs).errors,
           (batchLoop conv od q (rglobPng fs input_dir).length
              (rglobPng fs input_dir) 0 fs).fs,
           (batchLoop conv od q (rglobPng fs input_dir).length
              (rglobPng fs input_dir) 0 fs).calls ++
             [((rglobPng fs input_dir).length, (rglobPng fs input_dir).length,
               "Conversion complete!")]⟩, ?_, ?_, ?_, ?_⟩
  · simp [batch_convert, hex, hne]
  · rw [hb.1, hb.2, count_true_add_count_false, runOutcomes_length]
  · exact hb.1
  · exact hb.2

/-- C1 witness: a two-file directory, one decodable and one corrupt. -/
theorem batch_convert_partition_witness :
    ∃ st : BatchState,
      batch_convert PNGtoJPGConverter.init fsW1 ["d"] none none = Except.ok st ∧
      st.successes.length + st.errors.length = (rglobPng fsW1 ["d"]).length ∧
      st.successes.length =
        (runOutcomes PNGtoJPGConverter.init none none
          (rglobPng fsW1 ["d"]) fsW1).count true ∧
      st.errors.length =
        (runOutcomes PNGtoJPGConverter.init none none
          (rglobPng fsW1 ["d"]) fsW1).count false :=
  batch_convert_partition PNGtoJPGConverter.init fsW1 ["d"] none none
    (by decide) (by decide)

/-- C2: `convert_single_file` is total (the Python body sits inside
`try/except Exception`, so no exception reaches the caller — in this embedding
it is a plain function into a pair); for a nonexistent path it returns the
failure pair with the not-found message. -/
theorem convert_single_file_not_found (conv : PNGtoJPGConverter) (fs : FS)
    (png_path : FPath) (od : Option FPath) (q : Option Nat)
    (hex : pathExists fs png_path = false) :
    convert_single_file conv fs png_path od q =
      ((false, "File not found: " ++ pathStr png_path), fs) := by
  simp [convert_single_file, hex]

/-- C2 witness: converting a missing file. -/
theorem convert_single_file_not_found_witness :
    convert_single_file PNGtoJPGConverter.init fsW1 ["d", "missing.png"]
        none none =
      ((false, "File not found: " ++ pathStr ["d", "missing.png"]), fsW1) :=
  convert_single_file_not_found PNGtoJPGConverter.init fsW1
    ["d", "missing.png"] none none (by decide)

/-- C4: with `N ≥ 1` discovered files the callback trace is exactly
`(0, N, name 0), ..., (N-1, N, name (N-1))` in processing order followed by
`(N, N, "Conversion complete!")` — `N + 1` invocations in total. -/
theorem batch_convert_progress_calls (conv : PNGtoJPGConverter) (fs : FS)
    (input_dir : FPath) (od : Option FPath) (q : Option Nat)
    (hex : pathExists fs input_dir = true)
    (hne : rglobPng fs input_dir ≠ []) :
    ∃ st : BatchState,
      batch_convert conv fs input_dir od q = Except.ok st ∧
      st.calls =
        List.zipWith (fun j p => (j, (rglobPng fs input_dir).length, pathName p))
          (List.range' 0 (rglobPng fs input_dir).length)
          (rglobPng fs input_dir) ++
        [((rglobPng fs input_dir).length, (rglobPng fs input_dir).length,
          "Conversion complete!")] ∧
      st.calls.length = (rglobPng fs input_dir).length + 1 := by
  refine ⟨⟨(batchLoop conv od q (rglobPng fs input_dir).length
              (rglobPng fs input_dir) 0 fs).successes,
           (batchLoop conv od q (rglobPng fs input_dir).length
              (rglobPng fs input_dir) 0 fs).errors,
           (batchLoop conv od q (rglobPng fs input_dir).length
              (rglobPng fs input_dir) 0 fs).fs,
           (batchLoop conv od q (rglobPng fs input_dir).length
              (rglobPng fs input_dir) 0 fs).calls ++
             [((rglobPng fs input_dir).length, (rglobPng fs input_dir).length,
               "Conversion complete!")]⟩, ?_, ?_, ?_⟩
  · simp [batch_convert, hex, hne]
  · rw [batchLoop_calls]
  · rw [batchLoop_calls]
    simp

/-- C4 witness: two discovered files give three callback invocations. -/
theorem batch_convert_progress_calls_witness :
    ∃ st : BatchState,
      batch_convert PNGtoJPGConverter.init fsW1 ["d"] none none = Except.ok st ∧
      st.calls =
        List.zipWith (fun j p => (j, (rglobPng fsW1 ["d"]).length, pathName p))
          (List.range' 0 (rglobPng fsW1 ["d"]).length) (rglobPng fsW1 ["d"]) ++
        [((rglobPng fsW1 ["d"]).length, (rglobPng fsW1 ["d"]).length,
          "Conversion complete!")] ∧
      st.calls.length = (rglobPng fsW1 ["d"]).length + 1 :=
  batch_convert_progress_calls PNGtoJPGConverter.init fsW1 ["d"] none none
    (by decide) (by decide)

/-- C5: an existing directory with no matching files yields a normal return
with an empty success list and exactly the one informational message. -/
theorem batch_convert_no_matches (conv : PNGtoJPGConverter) (fs : FS)
    (input_dir : FPath) (od : Option FPath) (q : Option Nat)
    (hex : pathExists fs input_dir = true)
    (hempty : rglobPng fs input_dir = []) :
    batch_convert conv fs input_dir od q =
      Except.ok ⟨[], ["No PNG files found in the specified directory"],
        fs, []⟩ := by
  simp [batch_convert, hex, hempty]

/-- C5 witness: a directory holding only a `.txt` file. -/
theorem batch_convert_no_matches_witness :
    batch_convert PNGtoJPGConverter.init fsW2 ["e"] none none =
      Except.ok ⟨[], ["No PNG files found in the specified directory"],
        fsW2, []⟩ :=
  batch_convert_no_matches PNGtoJPGConverter.init fsW2 ["e"] none none
    (by decide) (by decide)

/-- C6: `batch_convert` raises exactly when the root directory is absent, and
the raised error carries the not-found message; in every other situation —
including per-file failures — it returns a result pair, so an individual
failure never aborts the batch. -/
theorem batch_convert_error_iff (conv : PNGtoJPGConverter) (fs : FS)
    (input_dir : FPath) (od : Option FPath) (q : Option Nat) (msg : String) :
    batch_convert conv fs input_dir od q = Except.error msg ↔
      pathExists fs input_dir = false ∧
        msg = "Directory not found: " ++ pathStr input_dir := by
  unfold batch_convert
  cases hex : pathExists fs input_dir with
  | false =>
    constructor
    · intro h
      simp only [if_pos] at h
      exact ⟨rfl, (Except.error.inj h).symm⟩
    · rintro ⟨-, h⟩
      simp [h]
  | true =>
    by_cases hempty : rglobPng fs input_dir = [] <;> simp [hempty]

/-- C6 witness: a missing root directory makes the batch raise not-found. -/
theorem batch_convert_error_iff_witness :
    batch_convert PNGtoJPGConverter.init fsW1 ["nope"] none none =
      Except.error ("Directory not found: " ++ pathStr ["nope"]) :=
  (batch_convert_error_iff PNGtoJPGConverter.init fsW1 ["nope"] none none
    ("Directory not found: " ++ pathStr ["nope"])).mpr ⟨by decide, rfl⟩

/-- C10: when an existing directory contains no matching files, the progress
callback is never invoked — the call trace of the run is empty. -/
theorem batch_convert_no_calls_when_empty (conv : PNGtoJPGConverter) (fs : FS)
    (input_dir : FPath) (od : Option FPath) (q : Option Nat)
    (hex : pathExists fs input_dir = true)
    (hempty : rglobPng fs input_dir = []) :
    ∀ st : BatchState,
      batch_convert conv fs input_dir od q = Except.ok st → st.calls = [] := by
  intro st hst
  simp [batch_convert, hex, hempty] at hst
  rw [← hst]

/-- C10 witness: the empty-match run from `fsW2` makes no callback calls. -/
theorem batch_convert_no_calls_when_empty_witness :
    (⟨[], ["No PNG files found in the specified directory"], fsW2, []⟩ :
      BatchState).calls = [] :=
  batch_convert_no_calls_when_empty PNGtoJPGConverter.init fsW2 ["e"]
    none none (by decide) (by decide)
    ⟨[], ["No PNG files found in the specified directory"], fsW2, []⟩ (by rfl)

/-! ### C3: case sensitivity of the discovery globs -/

def imgMixed : PImage := PImage.decoded "RGBA" (2, 2) 2

def fsC3 : FS := ⟨[⟨["d", "x.Png"], FileContent.image imgMixed⟩], [["d"]]⟩

/-- C3 counterexample: a directory whose only file is `x.Png` — a casing of
the PNG extension — yields an empty discovery list, and the batch returns the
"no PNG files" result instead of converting it; so discovery is not
case-insensitive. -/
theorem rglob_misses_mixed_case_cex :
    fsC3.files.map (·.path) = [["d", "x.Png"]] ∧
    pathExists fsC3 ["d"] = true ∧
    rglobPng fsC3 ["d"] = [] ∧
    batch_convert PNGtoJPGConverter.init fsC3 ["d"] none none =
      Except.ok ⟨[], ["No PNG files found in the specified directory"],
        fsC3, []⟩ :=
  ⟨rfl, rfl, rfl, rfl⟩

/-- C3 (amended): `batch_convert` discovers exactly the files, anywhere under
the input directory, whose name ends in `.png` or in `.PNG` with that exact
casing (the two `rglob` patterns of line 69); mixed casings such as `.Png`
are not matched. -/
theorem rglobPng_mem_iff (fs : FS) (dir : FPath) (p : FPath) :
    p ∈ rglobPng fs dir ↔
      ∃ e ∈ fs.files, e.path = p ∧
        (dir.isPrefixOf p = true ∧ dir.length < p.length) ∧
        (strEndsWith (pathName p) ".png" = true ∨
         strEndsWith (pathName p) ".PNG" = true) := by
  simp only [rglobPng, rglobFiles, List.mem_append, List.mem_map,
    List.mem_filter, Bool.and_eq_true, decide_eq_true_eq]
  constructor
  · rintro (⟨e, ⟨he, ⟨⟨hpre, hlen⟩, hext⟩⟩, rfl⟩ |
            ⟨e, ⟨he, ⟨⟨hpre, hlen⟩, hext⟩⟩, rfl⟩)
    · exact ⟨e, he, rfl, ⟨hpre, hlen⟩, Or.inl hext⟩
    · exact ⟨e, he, rfl, ⟨hpre, hlen⟩, Or.inr hext⟩
  · rintro ⟨e, he, rfl, ⟨hpre, hlen⟩, hext | hext⟩
    · exact Or.inl ⟨e, ⟨he, ⟨hpre, hlen⟩, hext⟩, rfl⟩
    · exact Or.inr ⟨e, ⟨he, ⟨hpre, hlen⟩, hext⟩, rfl⟩

/-! ### C7: mode normalisation -/

theorem normalizeImage_mode (bg : Nat × Nat × Nat) (img : PImage) :
    (normalizeImage bg img).mode = "RGB" := by
  unfold normalizeImage
  split
  · rfl
  · split
    · rfl
    · next h => exact not_not.mp h

/-- C7: every decoded image is normalised to RGB before encoding: RGBA/LA
images are pasted over a fresh background of the configured colour with their
last channel as mask, P images are first converted to RGBA and then pasted
the same way, any other non-RGB mode is converted directly, and the content
written on a successful conversion is a JPEG of the normalised image, which
never has an alpha channel. -/
theorem convert_encodes_rgb (bg : Nat × Nat × Nat) (img : PImage) :
    (normalizeImage bg img).mode = "RGB" ∧
    hasAlphaChannel (normalizeImage bg img) = false ∧
    (img.mode = "RGBA" ∨ img.mode = "LA" →
      normalizeImage bg img =
        PImage.pasted (PImage.newRGB img.size bg) img
          (some (PImage.lastChannel img))) ∧
    (img.mode = "P" →
      normalizeImage bg img =
        PImage.pasted (PImage.newRGB img.size bg)
          (PImage.converted "RGBA" img)
          (some (PImage.lastChannel (PImage.converted "RGBA" img)))) ∧
    (¬(img.mode = "RGBA" ∨ img.mode = "LA" ∨ img.mode = "P") →
      img.mode ≠ "RGB" →
      normalizeImage bg img = PImage.converted "RGB" img) ∧
    (∀ (conv : PNGtoJPGConverter) (fs : FS) (p : FPath) (od : Option FPath)
        (q : Option Nat) (o : String) (fs2 : FS),
      convert_single_file conv fs p od q = ((true, o), fs2) →
      ∃ src, lookupFile fs2 (output_path p od) =
          some (FileContent.image
            (PImage.jpegEncoded (normalizeImage conv.background_color src)
              (q.getD conv.quality))) ∧
        hasAlphaChannel
          (PImage.jpegEncoded (normalizeImage conv.background_color src)
            (q.getD conv.quality)) = false) := by
  refine ⟨normalizeImage_mode bg img, ?_, ?_, ?_, ?_, ?_⟩
  · simp [hasAlphaChannel, normalizeImage_mode]
  · rintro (h | h) <;> simp [normalizeImage, h]
  · intro h
    simp [normalizeImage, h, PImage.mode]
  · intro h1 h2
    unfold normalizeImage
    rw [if_neg h1, if_pos h2]
  · intro conv fs p od q o fs2 heq
    have hs : (convert_single_file conv fs p od q).1.1 = true := by rw [heq]
    obtain ⟨hex, img0, hlook⟩ := convert_success_inv conv fs p od q hs
    have hspec := convert_success_spec conv fs p od q img0 hex hlook
    rw [heq] at hspec
    simp only [Prod.mk.injEq] at hspec
    refine ⟨img0, ?_, rfl⟩
    rw [hspec.2]
    exact lookupFile_writeFile_self _ _ _

/-- C7 witness: an RGBA image is composited over the default white
background. -/
theorem convert_encodes_rgb_witness :
    normalizeImage (255, 255, 255) imgRGBA =
      PImage.pasted (PImage.newRGB (2, 2) (255, 255, 255)) imgRGBA
        (some (PImage.lastChannel imgRGBA)) :=
  ((convert_encodes_rgb (255, 255, 255) imgRGBA).2.2.1) (Or.inl rfl)

/-! ### C8: derived output path and directory creation -/

/-- C8: on success the returned path is the output directory (or the source's
parent when none is given) joined with the source stem plus `.jpg`, and when
an output directory is supplied it and all its ancestors exist afterwards. -/
theorem convert_output_path_spec (conv : PNGtoJPGConverter) (fs : FS)
    (p : FPath) (od : Option FPath) (q : Option Nat)
    (hs : (convert_single_file conv fs p od q).1.1 = true) :
    (convert_single_file conv fs p od q).1.2 = pathStr (output_path p od) ∧
    ∀ d, od = some d → ∀ a ∈ ancestorDirs d,
      a ∈ ((convert_single_file conv fs p od q).2).dirs := by
  obtain ⟨hex, img, hlook⟩ := convert_success_inv conv fs p od q hs
  have hspec := convert_success_spec conv fs p od q img hex hlook
  constructor
  · rw [hspec]
  · intro d hd a ha
    subst hd
    rw [hspec]
    simp only [writeFile, mkdirParents, List.mem_append]
    exact Or.inr ha

/-- C8 witness: converting `d/a.png` into output directory `out`. -/
theorem convert_output_path_spec_witness :
    (convert_single_file PNGtoJPGConverter.init fsW1 ["d", "a.png"]
        (some ["out"]) none).1.2 =
      pathStr (output_path ["d", "a.png"] (some ["out"])) ∧
    ∀ d, (some ["out"] : Option FPath) = some d → ∀ a ∈ ancestorDirs d,
      a ∈ ((convert_single_file PNGtoJPGConverter.init fsW1 ["d", "a.png"]
        (some ["out"]) none).2).dirs :=
  convert_output_path_spec PNGtoJPGConverter.init fsW1 ["d", "a.png"]
    (some ["out"]) none (by decide)

/-! ### C9: the output path depends only on the stem and output directory -/

/-- C9: with an explicit output directory, two successful conversions of
sources with equal stems return the same output path, and after the second
conversion the file at that path holds the JPEG produced from the second
source — the later conversion overwrites the earlier one. -/
theorem output_path_stem_only (conv : PNGtoJPGConverter) (fs fs1 fs2 : FS)
    (p1 p2 : FPath) (d : FPath) (q : Option Nat) (img2 : PImage)
    (o1 o2 : String)
    (hstem : stem (pathName p1) = stem (pathName p2))
    (h1 : convert_single_file conv fs p1 (some d) q = ((true, o1), fs1))
    (h2 : convert_single_file conv fs1 p2 (some d) q = ((true, o2), fs2))
    (himg : lookupFile fs1 p2 = some (FileContent.image img2)) :
    o1 = o2 ∧ o2 = pathStr (output_path p2 (some d)) ∧
    lookupFile fs2 (output_path p2 (some d)) =
      some (FileContent.image
        (PImage.jpegEncoded (normalizeImage conv.background_color img2)
          (q.getD conv.quality))) := by
  have hs1 : (convert_single_file conv fs p1 (some d) q).1.1 = true := by
    rw [h1]
  obtain ⟨hex1, imgA, hlookA⟩ := convert_success_inv conv fs p1 (some d) q hs1
  have hspec1 := convert_success_spec conv fs p1 (some d) q imgA hex1 hlookA
  rw [h1] at hspec1
  have hs2 : (convert_single_file conv fs1 p2 (some d) q).1.1 = true := by
    rw [h2]
  obtain ⟨hex2, -⟩ := convert_success_inv conv fs1 p2 (some d) q hs2
  have hspec2 := convert_success_spec conv fs1 p2 (some d) q img2 hex2 himg
  rw [h2] at hspec2
  simp only [Prod.mk.injEq] at hspec1 hspec2
  have hout : output_path p1 (some d) = output_path p2 (some d) := by
    simp [output_path, hstem]
  refine ⟨?_, hspec2.1.2, ?_⟩
  · rw [hspec1.1.2, hspec2.1.2, hout]
  · rw [hspec2.2]
    exact lookupFile_writeFile_self _ _ _

def fsW3 : FS :=
  ⟨[⟨["r", "s1", "a.png"], FileContent.image imgRGB⟩,
    ⟨["r", "s2", "a.png"], FileContent.image imgRGBA⟩],
   [["r"], ["r", "s1"], ["r", "s2"]]⟩

def fsW3a : FS :=
  (convert_single_file PNGtoJPGConverter.init fsW3 ["r", "s1", "a.png"]
    (some ["out"]) none).2

def fsW3b : FS :=
  (convert_single_file PNGtoJPGConverter.init fsW3a ["r", "s2", "a.png"]
    (some ["out"]) none).2

/-- C9 witness: `r/s1/a.png` and `r/s2/a.png` both map to `out/a.jpg`, and
after both conversions that file holds the JPEG from the second source. -/
theorem output_path_stem_only_witness :
    pathStr (output_path ["r", "s1", "a.png"] (some ["out"])) =
      pathStr (output_path ["r", "s2", "a.png"] (some ["out"])) ∧
    pathStr (output_path ["r", "s2", "a.png"] (some ["out"])) =
      pathStr (output_path ["r", "s2", "a.png"] (some ["out"])) ∧
    lookupFile fsW3b (output_path ["r", "s2", "a.png"] (some ["out"])) =
      some (FileContent.image
        (PImage.jpegEncoded (normalizeImage (255, 255, 255) imgRGBA) 95)) :=
  output_path_stem_only PNGtoJPGConverter.init fsW3 fsW3a fsW3b
    ["r", "s1", "a.png"] ["r", "s2", "a.png"] ["out"] none imgRGBA
    (pathStr (output_path ["r", "s1", "a.png"] (some ["out"])))
    (pathStr (output_path ["r", "s2", "a.png"] (some ["out"])))
    rfl rfl rfl (by rfl)
